import Mathlib

/-
  Verification development for the chaoleme sampling, persistence and scoring
  core (Go sources under analyzer/, collector/, storage/).

  The Go code is shallowly embedded: float64 arithmetic is modelled over the
  rationals, uint64 counters over the naturals with explicit wraparound
  modulo 2^64, timestamps as integers (Unix seconds), and the SQLite table
  as an in-memory list of rows.  Fallible operations return Except values.
  Presentation-only description strings (the RiskDetails map built by the
  describe* helpers in score.go) have no effect on any numeric output and
  are not modelled.
-/

namespace Chaoleme

/-! ## Machine-integer model

Go uint64 arithmetic wraps modulo 2^64.  `wsub` models uint64 subtraction
`a - b` for operands already reduced into range. -/

def W64 : ℕ := 2 ^ 64

/-- Wrapping subtraction of uint64 values, modelled on naturals. -/
def wsub (a b : ℕ) : ℕ := (a % W64 + (W64 - b % W64)) % W64

/-! ## Storage layer (storage/sqlite.go)

The metrics table has columns id, timestamp, metric_type, value, extra.
The extra column holds the JSON serialization of an optional
string-to-value map; we model the JSON document abstractly as the
key-value list it encodes, with json.Marshal of a Go map modelled by its
observable effect of emitting the keys in sorted order. -/

/-- MetricType from storage/sqlite.go: the closed enumeration of sample types. -/
inductive MetricType where
  | cpuSteal
  | cpuIoWait
  | cpuBench
  | ioLatency
  | diskStats
  | randomIO
  | memory
  | cpuLoad
deriving DecidableEq

/-- A JSON scalar stored in the extra payload (the Go code only reads
float64 and stores numbers and strings). -/
inductive JsonValue where
  | num (q : ℚ)
  | str (s : String)
deriving DecidableEq

/-- The extra payload of a metric: a mapping of string keys to values,
as the key-value list of the JSON object. -/
abbrev ExtraMap := List (String × JsonValue)

/-- Metric from storage/sqlite.go (field Type is rendered mtype because
Type is reserved in Lean). -/
structure Metric where
  id : ℕ := 0
  timestamp : ℤ := 0
  mtype : MetricType
  value : ℚ := 0
  extra : Option ExtraMap := none
deriving DecidableEq

/-- One row of the metrics table.  extraCol is the deserialized view of the
extra TEXT column; none models the empty string written for a nil map. -/
structure Row where
  id : ℕ
  timestamp : ℤ
  mtype : MetricType
  value : ℚ
  extraCol : Option ExtraMap
deriving DecidableEq

/-- The Storage state: the rows of the metrics table plus the
AUTOINCREMENT counter. -/
structure Storage where
  rows : List Row := []
  nextId : ℕ := 1

/-- json.Marshal of a Go map emits the entries in ascending key order; the
serialized object therefore denotes the key-sorted entry list. -/
def marshalExtra (e : ExtraMap) : ExtraMap :=
  e.mergeSort (fun a b => a.1 ≤ b.1)

/-- Save from storage/sqlite.go: serializes extra only when present and
appends one row with the next sequence id. -/
def Save (s : Storage) (m : Metric) : Storage :=
  { rows := s.rows ++ [⟨s.nextId, m.timestamp, m.mtype, m.value, m.extra.map marshalExtra⟩],
    nextId := s.nextId + 1 }

/-- Query from storage/sqlite.go: rows of one type with timestamp in the
inclusive range, ordered by ascending timestamp, with the extra column
deserialized back into a map. -/
def Query (s : Storage) (t : MetricType) (start fin : ℤ) : List Metric :=
  ((s.rows.filter fun r =>
      decide (r.mtype = t) && decide (start ≤ r.timestamp) && decide (r.timestamp ≤ fin)).mergeSort
    (fun r1 r2 => r1.timestamp ≤ r2.timestamp)).map
    fun r => { id := r.id, timestamp := r.timestamp, mtype := r.mtype,
               value := r.value, extra := r.extraCol }

/-- Cleanup from storage/sqlite.go: deletes rows strictly older than
now minus retentionDays (AddDate with day granularity, modelled as
86400-second days) and returns the number of rows the DELETE removed. -/
def Cleanup (s : Storage) (now : ℤ) (retentionDays : ℕ) : ℕ × Storage :=
  let cutoff := now - (retentionDays : ℤ) * 86400
  ((s.rows.filter fun r => decide (r.timestamp < cutoff)).length,
   { s with rows := s.rows.filter fun r => !decide (r.timestamp < cutoff) })

/-! ## CPU collector (collector/cpu.go) -/

/-- CPUStats from collector/cpu.go: the cumulative kernel time-bucket
counters, each a uint64. -/
structure CPUStats where
  user : ℕ
  nice : ℕ
  system : ℕ
  idle : ℕ
  iowait : ℕ
  irq : ℕ
  softirq : ℕ
  steal : ℕ
  guest : ℕ
  guestNice : ℕ

/-- Total from collector/cpu.go: the uint64 sum of all buckets. -/
def CPUStats.total (s : CPUStats) : ℕ :=
  (s.user + s.nice + s.system + s.idle + s.iowait + s.irq + s.softirq +
    s.steal + s.guest + s.guestNice) % W64

/-- CPUUsage from collector/cpu.go. -/
structure CPUUsage where
  stealPercent : ℚ
  iowaitPercent : ℚ
deriving DecidableEq

/-- The delta computation at the heart of Collect (collector/cpu.go
lines 111-126): uint64 counter deltas between the previous and the
current snapshot, guarded against a zero total delta. -/
def collectDelta (last cur : CPUStats) : CPUUsage :=
  let totalDelta := wsub cur.total last.total
  let stealDelta := wsub cur.steal last.steal
  let iowaitDelta := wsub cur.iowait last.iowait
  if totalDelta = 0 then ⟨0, 0⟩
  else ⟨(stealDelta : ℚ) / (totalDelta : ℚ) * 100,
        (iowaitDelta : ℚ) / (totalDelta : ℚ) * 100⟩

/-- One Collect call (collector/cpu.go lines 95-126) after the kernel
reads succeed.  first is the snapshot read on entry; second is the
snapshot read after the bootstrap sleep, used only when no previous state
exists.  Returns the usage and the new lastStats value. -/
def Collect (lastStats : Option CPUStats) (first second : CPUStats) :
    CPUUsage × CPUStats :=
  match lastStats with
  | none => (collectDelta first second, second)
  | some last => (collectDelta last first, first)

/-! ## Memory collector (collector/memory.go) -/

/-- MemoryStats from collector/memory.go: the parsed meminfo counters in
KB, each a uint64. -/
structure MemoryStats where
  memTotal : ℕ
  memFree : ℕ
  memAvailable : ℕ
  buffers : ℕ
  cached : ℕ
  swapTotal : ℕ
  swapFree : ℕ

/-- UsagePercent from collector/memory.go; the subtraction is uint64 and
wraps. -/
def MemoryStats.UsagePercent (m : MemoryStats) : ℚ :=
  if m.memTotal = 0 then 0
  else (wsub m.memTotal m.memAvailable : ℚ) / (m.memTotal : ℚ) * 100

/-- AvailablePercent from collector/memory.go. -/
def MemoryStats.AvailablePercent (m : MemoryStats) : ℚ :=
  if m.memTotal = 0 then 0
  else (m.memAvailable : ℚ) / (m.memTotal : ℚ) * 100

/-- SwapUsagePercent from collector/memory.go; the subtraction is uint64
and wraps. -/
def MemoryStats.SwapUsagePercent (m : MemoryStats) : ℚ :=
  if m.swapTotal = 0 then 0
  else (wsub m.swapTotal m.swapFree : ℚ) / (m.swapTotal : ℚ) * 100

/-! ## Disk collector: test-directory selection (collector/disk.go) -/

/-- Model of strings.HasPrefix on the character sequences of the two
strings (Go compares the underlying bytes). -/
def startsWith (s pre : String) : Bool := pre.data.isPrefixOf s.data

/-- isTmpfs from collector/disk.go: scans every line of /proc/mounts
(here pre-split into whitespace fields), skips lines with fewer than three
fields, and reports true as soon as some tmpfs entry has its mount point
equal to the path or as a slash-terminated prefix of it. -/
def isTmpfs (mounts : List (List String)) (path : String) : Bool :=
  mounts.any fun fields =>
    if fields.length < 3 then false
    else
      let mountPoint := fields.getD 1 ""
      let fsType := fields.getD 2 ""
      if startsWith path mountPoint && fsType == "tmpfs" then
        path == mountPoint || startsWith path (mountPoint ++ "/")
      else false

/-- The candidate walk inside selectTestDir (collector/disk.go).  statOk
abstracts the os.Stat existence check on a directory. -/
def selectTestDirLoop (mounts : List (List String)) (statOk : String → Bool) :
    List String → String
  | [] => "."
  | dir :: rest =>
    if dir == "." then "."
    else if !statOk dir then selectTestDirLoop mounts statOk rest
    else if isTmpfs mounts dir then selectTestDirLoop mounts statOk rest
    else dir

/-- selectTestDir from collector/disk.go with its fixed candidate list. -/
def selectTestDir (mounts : List (List String)) (statOk : String → Bool) : String :=
  selectTestDirLoop mounts statOk ["/tmp", "/var/tmp", "."]

/-- StorageType from collector/disk.go. -/
inductive StorageType where
  | ssd
  | hdd
  | unknown
deriving DecidableEq

/-! ## Risk analyzer (analyzer/score.go)

The analyzer reads the store through Query calls that can fail.  We
abstract the store behind the query function itself so that both failing
and succeeding stores can be analyzed; the SQLite model above realizes
the successful case. -/

/-- The query interface the analyzer consumes: Query(type, start, end)
returning either the matching metrics or a storage error. -/
abbrev Store := MetricType → ℤ → ℤ → Except String (List Metric)

/-- Analyzer from analyzer/score.go: the store handle plus the storage
type detected once at construction. -/
structure Analyzer where
  store : Store
  storageType : StorageType

/-- The scoring weights from analyzer/score.go. -/
def WeightCPUSteal : ℚ := 35 / 100

/-- CPU IOWait weight. -/
def WeightCPUIoWait : ℚ := 10 / 100

/-- CPU stability weight. -/
def WeightCPUStability : ℚ := 10 / 100

/-- Sequential I/O latency weight. -/
def WeightIOLatency : ℚ := 15 / 100

/-- Random I/O latency weight. -/
def WeightRandomIO : ℚ := 10 / 100

/-- Disk busy weight. -/
def WeightDiskBusy : ℚ := 5 / 100

/-- Memory weight. -/
def WeightMemory : ℚ := 10 / 100

/-- Baseline deviation weight. -/
def WeightBaseline : ℚ := 5 / 100

/-- PeriodStats from analyzer/score.go.  Fields default to the Go zero
values; the RiskDetails description map is presentation-only and not
modelled. -/
structure PeriodStats where
  period : String := ""
  startTime : ℤ := 0
  endTime : ℤ := 0
  cpuStealAvg : ℚ := 0
  cpuStealMax : ℚ := 0
  cpuStealP95 : ℚ := 0
  cpuIoWaitAvg : ℚ := 0
  cpuIoWaitMax : ℚ := 0
  cpuIoWaitP95 : ℚ := 0
  cpuBenchAvg : ℚ := 0
  cpuBenchCV : ℚ := 0
  ioLatencyAvg : ℚ := 0
  ioLatencyP95 : ℚ := 0
  ioLatencyP99 : ℚ := 0
  randomIOWriteAvg : ℚ := 0
  randomIOReadAvg : ℚ := 0
  randomIOP95 : ℚ := 0
  diskBusyPercent : ℚ := 0
  memoryAvailablePercent : ℚ := 0
  cpuLoadAvg : ℚ := 0
  cpuLoadMax : ℚ := 0
  baselineDeviation : ℚ := 0
  baselineStatus : String := ""
  storageType : StorageType := .unknown
  totalScore : ℚ := 0
  riskLevel : String := ""

/-- extractValues from analyzer/score.go. -/
def extractValues (metrics : List Metric) : List ℚ :=
  metrics.map fun m => m.value

/-- avg from analyzer/score.go. -/
def avg (values : List ℚ) : ℚ :=
  if values.length = 0 then 0 else values.sum / (values.length : ℚ)

/-- The max helper from analyzer/score.go (first element, then a fold
keeping the larger value). -/
def maxVal (values : List ℚ) : ℚ :=
  match values with
  | [] => 0
  | v :: rest => rest.foldl (fun m x => if x > m then x else m) v

/-- percentile from analyzer/score.go: nearest-rank index
ceil(p/100*n) - 1 into the ascending-sorted values, clamped into
[0, n-1]. -/
def percentile (values : List ℚ) (p : ℚ) : ℚ :=
  if values.length = 0 then 0
  else
    let sorted := values.mergeSort (fun a b => a ≤ b)
    let index : ℤ := ⌈p / 100 * (values.length : ℚ)⌉ - 1
    let index := if index < 0 then 0 else index
    let index := if (values.length : ℤ) ≤ index then (values.length : ℤ) - 1 else index
    sorted.getD index.toNat 0

/-- coefficientOfVariation from analyzer/score.go.  math.Sqrt on float64
is modelled by the rational square root; no claim in this development
depends on the value this produces. -/
def coefficientOfVariation (values : List ℚ) : ℚ :=
  if values.length < 2 then 0
  else
    let mean := avg values
    if mean = 0 then 0
    else
      let sumSquares := (values.map fun v => (v - mean) * (v - mean)).sum
      let stdDev := Rat.sqrt (sumSquares / (values.length : ℚ))
      stdDev / mean

/-- The error-discarding query pattern used throughout AnalyzePeriod and
calculateBaselineDeviation: a failed Query leaves the nil slice, so the
analyzer sees an empty metric list. -/
def queryOr (store : Store) (t : MetricType) (start fin : ℤ) : List Metric :=
  match store t start fin with
  | .ok l => l
  | .error _ => []

/-- scoreCPUSteal from analyzer/score.go. -/
def scoreCPUSteal (avgSteal : ℚ) : ℚ :=
  if avgSteal < 3 then 100
  else if avgSteal < 8 then 70
  else if avgSteal < 15 then 40
  else 0

/-- scoreCPUIoWait from analyzer/score.go. -/
def scoreCPUIoWait (avgIoWait : ℚ) : ℚ :=
  if avgIoWait < 5 then 100
  else if avgIoWait < 15 then 70
  else if avgIoWait < 30 then 40
  else 0

/-- scoreCPUStability from analyzer/score.go. -/
def scoreCPUStability (cv : ℚ) : ℚ :=
  if cv < 5 / 100 then 100
  else if cv < 15 / 100 then 70
  else 30

/-- scoreIOLatency from analyzer/score.go. -/
def scoreIOLatency (p95 : ℚ) (storageType : StorageType) : ℚ :=
  if storageType = StorageType.hdd then
    if p95 < 50 then 100
    else if p95 < 100 then 70
    else if p95 < 200 then 40
    else 0
  else
    if p95 < 20 then 100
    else if p95 < 50 then 70
    else if p95 < 100 then 40
    else 0

/-- scoreRandomIO from analyzer/score.go. -/
def scoreRandomIO (p95 : ℚ) (storageType : StorageType) : ℚ :=
  if storageType = StorageType.hdd then
    if p95 < 100 then 100
    else if p95 < 200 then 70
    else if p95 < 500 then 40
    else 0
  else
    if p95 < 30 then 100
    else if p95 < 80 then 70
    else if p95 < 150 then 40
    else 0

/-- scoreDiskBusy from analyzer/score.go. -/
def scoreDiskBusy (busyPercent : ℚ) : ℚ :=
  if busyPercent < 30 then 100
  else if busyPercent < 60 then 70
  else if busyPercent < 85 then 40
  else 0

/-- scoreMemory from analyzer/score.go. -/
def scoreMemory (availablePercent : ℚ) : ℚ :=
  if availablePercent > 90 then 100
  else if availablePercent > 80 then 80
  else 50

/-- scoreBaselineDeviation from analyzer/score.go. -/
def scoreBaselineDeviation (deviation : ℚ) : ℚ :=
  if deviation < 10 then 100
  else if deviation < 25 then 70
  else if deviation < 50 then 40
  else 20

/-- calculateOversellConfidenceBoost from analyzer/score.go lines
522-542. -/
def calculateOversellConfidenceBoost (stats : PeriodStats) : ℚ :=
  if stats.cpuLoadAvg ≥ 7 / 10 then 1
  else
    let hasStealIssue := stats.cpuStealAvg > 3
    let hasIoWaitIssue := stats.cpuIoWaitAvg > 5
    if hasStealIssue ∨ hasIoWaitIssue then
      let boost := 1 + (7 / 10 - stats.cpuLoadAvg) * (3 / 10)
      if boost > 6 / 5 then 6 / 5 else boost
    else 1

/-- The in-place sharpening applied to the steal and iowait scores in
calculateScore (lines 239-241 and 247-249): a score below 100 is divided
by a boost above 1. -/
def boostedScore (score boost : ℚ) : ℚ :=
  if boost > 1 ∧ score < 100 then score / boost else score

/-- calculateScore from analyzer/score.go lines 230-298, restricted to
its numeric effect (TotalScore and RiskLevel). -/
def calculateScore (stats : PeriodStats) : PeriodStats :=
  let confidenceBoost := calculateOversellConfidenceBoost stats
  let cpuStealScore := boostedScore (scoreCPUSteal stats.cpuStealAvg) confidenceBoost
  let cpuIoWaitScore := boostedScore (scoreCPUIoWait stats.cpuIoWaitAvg) confidenceBoost
  let cpuStabilityScore := scoreCPUStability stats.cpuBenchCV
  let ioScore := scoreIOLatency stats.ioLatencyP95 stats.storageType
  let randomIOScore := scoreRandomIO stats.randomIOP95 stats.storageType
  let diskBusyScore := scoreDiskBusy stats.diskBusyPercent
  let memoryScore := scoreMemory stats.memoryAvailablePercent
  let baselineScore := scoreBaselineDeviation stats.baselineDeviation
  let totalScore :=
    cpuStealScore * WeightCPUSteal + cpuIoWaitScore * WeightCPUIoWait +
    cpuStabilityScore * WeightCPUStability + ioScore * WeightIOLatency +
    randomIOScore * WeightRandomIO + diskBusyScore * WeightDiskBusy +
    memoryScore * WeightMemory + baselineScore * WeightBaseline
  let riskLevel :=
    if totalScore ≥ 90 then "excellent"
    else if totalScore ≥ 70 then "good"
    else if totalScore ≥ 50 then "medium"
    else "severe"
  { stats with totalScore := totalScore, riskLevel := riskLevel }

/-- One per-metric deviation block of calculateBaselineDeviation
(analyzer/score.go lines 614-639): the same guard-and-append pattern is
written out three times in the source, once per metric. -/
def deviationChunk (cur : ℚ) (baseline : List Metric) : List ℚ :=
  if 0 < baseline.length then
    let baselineAvg := avg (extractValues baseline)
    if baselineAvg > 0 then [(cur - baselineAvg) / baselineAvg * 100]
    else []
  else []

/-- The body of calculateBaselineDeviation (analyzer/score.go lines
606-665) as a function of the three baseline window contents. -/
def baselineDeviationFrom (stats : PeriodStats)
    (baselineSteal baselineIO baselineLoad : List Metric) : ℚ × String :=
  if baselineSteal.length < 10 ∧ baselineIO.length < 10 then
    (0, "stable")
  else
    let deviations := deviationChunk stats.cpuStealAvg baselineSteal ++
      deviationChunk stats.ioLatencyAvg baselineIO ++
      deviationChunk stats.cpuLoadAvg baselineLoad
    let totalDeviation :=
      if 0 < deviations.length then deviations.sum / (deviations.length : ℚ) else 0
    let status :=
      if totalDeviation > 10 then "degrading"
      else if totalDeviation < -10 then "improving"
      else "stable"
    let totalDeviation := if totalDeviation < 0 then -totalDeviation else totalDeviation
    (totalDeviation, status)

/-- calculateBaselineDeviation from analyzer/score.go lines 596-665: the
trailing 7-day baseline window (AddDate day granularity, modelled as
86400-second days) ends at the start of the requested window; query
errors are discarded exactly as in the source, and the deviation is
computed from the three window contents by baselineDeviationFrom. -/
def calculateBaselineDeviation (a : Analyzer) (stats : PeriodStats) : ℚ × String :=
  let baselineEnd := stats.startTime
  let baselineStart := baselineEnd - 7 * 86400
  baselineDeviationFrom stats
    (queryOr a.store MetricType.cpuSteal baselineStart baselineEnd)
    (queryOr a.store MetricType.ioLatency baselineStart baselineEnd)
    (queryOr a.store MetricType.cpuLoad baselineStart baselineEnd)

/-- AnalyzePeriod from analyzer/score.go lines 108-227.  Every Query
error is discarded with the blank identifier in the source; the function
itself always returns a nil error, modelled as the none in the second
component. -/
def AnalyzePeriod (a : Analyzer) (period : String) (start fin : ℤ) :
    PeriodStats × Option String :=
  let stats0 : PeriodStats :=
    { period := period, startTime := start, endTime := fin,
      storageType := a.storageType }
  let cpuStealMetrics := queryOr a.store MetricType.cpuSteal start fin
  let cpuBenchMetrics := queryOr a.store MetricType.cpuBench start fin
  let ioLatencyMetrics := queryOr a.store MetricType.ioLatency start fin
  let memoryMetrics := queryOr a.store MetricType.memory start fin
  let stats1 :=
    if 0 < cpuStealMetrics.length then
      let values := extractValues cpuStealMetrics
      { stats0 with cpuStealAvg := avg values, cpuStealMax := maxVal values,
                    cpuStealP95 := percentile values 95 }
    else stats0
  let cpuIoWaitMetrics := queryOr a.store MetricType.cpuIoWait start fin
  let stats2 :=
    if 0 < cpuIoWaitMetrics.length then
      let values := extractValues cpuIoWaitMetrics
      { stats1 with cpuIoWaitAvg := avg values, cpuIoWaitMax := maxVal values,
                    cpuIoWaitP95 := percentile values 95 }
    else stats1
  let stats3 :=
    if 0 < cpuBenchMetrics.length then
      let values := extractValues cpuBenchMetrics
      { stats2 with cpuBenchAvg := avg values,
                    cpuBenchCV := coefficientOfVariation values }
    else stats2
  let stats4 :=
    if 0 < ioLatencyMetrics.length then
      let values := extractValues ioLatencyMetrics
      { stats3 with ioLatencyAvg := avg values,
                    ioLatencyP95 := percentile values 95,
                    ioLatencyP99 := percentile values 99 }
    else stats3
  let stats5 :=
    if h : 0 < memoryMetrics.length then
      let latest := memoryMetrics.getLast (List.length_pos.mp h)
      let s : PeriodStats :=
        match latest.extra with
        | some ex =>
          match ex.lookup "available_percent" with
          | some (JsonValue.num availPct) =>
            { stats4 with memoryAvailablePercent := availPct }
          | _ => stats4
        | none => stats4
      if s.memoryAvailablePercent = 0 then
        { s with memoryAvailablePercent := 100 - latest.value }
      else s
    else stats4
  let cpuLoadMetrics := queryOr a.store MetricType.cpuLoad start fin
  let stats6 :=
    if 0 < cpuLoadMetrics.length then
      let values := extractValues cpuLoadMetrics
      { stats5 with cpuLoadAvg := avg values, cpuLoadMax := maxVal values }
    else stats5
  let randomIOMetrics := queryOr a.store MetricType.randomIO start fin
  let stats7 :=
    if 0 < randomIOMetrics.length then
      let writeLatencies := randomIOMetrics.filterMap fun m =>
        m.extra.bind fun ex =>
          match ex.lookup "write_latency_ms" with
          | some (JsonValue.num wl) => some wl
          | _ => none
      let readLatencies := randomIOMetrics.filterMap fun m =>
        m.extra.bind fun ex =>
          match ex.lookup "read_latency_ms" with
          | some (JsonValue.num rl) => some rl
          | _ => none
      let s :=
        if 0 < writeLatencies.length then
          { stats6 with randomIOWriteAvg := avg writeLatencies }
        else stats6
      let s :=
        if 0 < readLatencies.length then
          { s with randomIOReadAvg := avg readLatencies }
        else s
      if 0 < writeLatencies.length then
        { s with randomIOP95 := percentile writeLatencies 95 }
      else s
    else stats6
  let diskStatsMetrics := queryOr a.store MetricType.diskStats start fin
  let stats8 :=
    if 2 ≤ diskStatsMetrics.length then
      let busyPercents := diskStatsMetrics.filterMap fun m =>
        m.extra.bind fun ex =>
          match ex.lookup "busy_percent" with
          | some (JsonValue.num bp) => some bp
          | _ => none
      if 0 < busyPercents.length then
        { stats7 with diskBusyPercent := avg busyPercents }
      else stats7
    else stats7
  let bd := calculateBaselineDeviation a stats8
  let stats9 := { stats8 with baselineDeviation := bd.1, baselineStatus := bd.2 }
  let stats10 := calculateScore stats9
  (stats10, none)

/-! ## Shared helper lemmas -/

/-- Wrapping uint64 subtraction agrees with natural subtraction when the
minuend is in range and at least the subtrahend. -/
lemma wsub_of_le {a b : ℕ} (hba : b ≤ a) (ha : a < W64) : wsub a b = a - b := by
  have hb : b < W64 := lt_of_le_of_lt hba ha
  unfold wsub
  rw [Nat.mod_eq_of_lt ha, Nat.mod_eq_of_lt hb]
  have h1 : a + (W64 - b) = (a - b) + W64 := by omega
  rw [h1, Nat.add_mod_right, Nat.mod_eq_of_lt (by omega)]

/-- The steal score ladder only produces nonnegative values. -/
lemma scoreCPUSteal_nonneg (x : ℚ) : 0 ≤ scoreCPUSteal x := by
  unfold scoreCPUSteal
  split_ifs <;> norm_num

/-- The confidence boost never drops below 1. -/
lemma one_le_confidenceBoost (stats : PeriodStats) :
    1 ≤ calculateOversellConfidenceBoost stats := by
  simp only [calculateOversellConfidenceBoost]
  split_ifs with h1 h2 h3
  · exact le_refl 1
  · norm_num
  · push_neg at h1
    nlinarith
  · exact le_refl 1

/-- The confidence boost never exceeds 6/5. -/
lemma confidenceBoost_le (stats : PeriodStats) :
    calculateOversellConfidenceBoost stats ≤ 6 / 5 := by
  simp only [calculateOversellConfidenceBoost]
  split_ifs with h1 h2 h3
  · norm_num
  · exact le_refl _
  · push_neg at h3
    exact h3
  · norm_num

/-- Sharpening a nonnegative score by a boost of at least 1 never
increases it. -/
lemma boostedScore_le {s b : ℚ} (hs : 0 ≤ s) (hb : 1 ≤ b) :
    boostedScore s b ≤ s := by
  unfold boostedScore
  split_ifs with h
  · exact div_le_self hs hb
  · exact le_refl s

/-! ## C4: confidence boost characterization -/

/-- C4.  calculateOversellConfidenceBoost returns exactly 1 whenever the
normalized load average is at least 0.7; otherwise, when steal exceeds 3
or iowait exceeds 5, it returns 1 + (0.7 - load) * 0.3 capped at 1.2,
and 1 otherwise; it always lies within [1, 1.2]. -/
theorem c4_confidence_boost_spec (stats : PeriodStats) :
    calculateOversellConfidenceBoost stats =
      (if stats.cpuLoadAvg ≥ 7 / 10 then 1
       else if stats.cpuStealAvg > 3 ∨ stats.cpuIoWaitAvg > 5 then
         min (1 + (7 / 10 - stats.cpuLoadAvg) * (3 / 10)) (6 / 5)
       else 1) ∧
    1 ≤ calculateOversellConfidenceBoost stats ∧
    calculateOversellConfidenceBoost stats ≤ 6 / 5 := by
  refine ⟨?_, one_le_confidenceBoost stats, confidenceBoost_le stats⟩
  simp only [calculateOversellConfidenceBoost]
  split_ifs with h1 h2 h3 <;> try rfl
  · exact (min_eq_right (le_of_lt h3)).symm
  · push_neg at h3
    exact (min_eq_left h3).symm

/-! ## C5: the 10-percent steal scenario -/

/-- C5.  With average steal 10, normalized load 0.3 and iowait below its
threshold, the steal dimension scores 40 before adjustment, the boost is
1.12 = 28/25, the adjusted steal score is 40 / 1.12 = 250/7 (about 35.7)
and it contributes 250/7 * 0.35 = 12.5 points; and sharpening a steal
score by the boost never increases it. -/
theorem c5_steal_scenario (stats : PeriodStats) :
    (stats.cpuStealAvg = 10 → stats.cpuLoadAvg = 3 / 10 → stats.cpuIoWaitAvg < 5 →
      scoreCPUSteal stats.cpuStealAvg = 40 ∧
      calculateOversellConfidenceBoost stats = 28 / 25 ∧
      boostedScore (scoreCPUSteal stats.cpuStealAvg)
        (calculateOversellConfidenceBoost stats) = 250 / 7 ∧
      boostedScore (scoreCPUSteal stats.cpuStealAvg)
        (calculateOversellConfidenceBoost stats) * WeightCPUSteal = 25 / 2) ∧
    boostedScore (scoreCPUSteal stats.cpuStealAvg)
      (calculateOversellConfidenceBoost stats) ≤ scoreCPUSteal stats.cpuStealAvg := by
  constructor
  · intro h1 h2 _h3
    have hscore : scoreCPUSteal stats.cpuStealAvg = 40 := by
      rw [h1]; norm_num [scoreCPUSteal]
    have hboost : calculateOversellConfidenceBoost stats = 28 / 25 := by
      unfold calculateOversellConfidenceBoost
      rw [h1, h2]
      norm_num
    have hadj : boostedScore (scoreCPUSteal stats.cpuStealAvg)
        (calculateOversellConfidenceBoost stats) = 250 / 7 := by
      rw [hscore, hboost]
      norm_num [boostedScore]
    refine ⟨hscore, hboost, hadj, ?_⟩
    rw [hadj]
    norm_num [WeightCPUSteal]
  · exact boostedScore_le (scoreCPUSteal_nonneg _) (one_le_confidenceBoost _)

/-- Witness for C5 at the concrete stats of the scenario. -/
theorem c5_witness :
    scoreCPUSteal (10 : ℚ) = 40 ∧
    calculateOversellConfidenceBoost { cpuStealAvg := 10, cpuLoadAvg := 3 / 10 } = 28 / 25 ∧
    boostedScore (scoreCPUSteal (10 : ℚ))
      (calculateOversellConfidenceBoost { cpuStealAvg := 10, cpuLoadAvg := 3 / 10 }) = 250 / 7 ∧
    boostedScore (scoreCPUSteal (10 : ℚ))
      (calculateOversellConfidenceBoost { cpuStealAvg := 10, cpuLoadAvg := 3 / 10 }) *
      WeightCPUSteal = 25 / 2 := by
  have h := (c5_steal_scenario { cpuStealAvg := 10, cpuLoadAvg := 3 / 10 }).1
    rfl rfl (by norm_num)
  exact h

/-! ## C7: retention cleanup -/

/-- C7.  Cleanup removes exactly the rows strictly older than the cutoff
now - retentionDays, returns their count, and a second run on the result
with the same arguments removes nothing. -/
theorem c7_cleanup_spec (s : Storage) (now : ℤ) (d : ℕ) :
    (∀ r : Row, r ∈ (Cleanup s now d).2.rows ↔
      r ∈ s.rows ∧ ¬(r.timestamp < now - (d : ℤ) * 86400)) ∧
    (Cleanup s now d).1 =
      s.rows.countP (fun r => decide (r.timestamp < now - (d : ℤ) * 86400)) ∧
    (Cleanup (Cleanup s now d).2 now d).1 = 0 := by
  refine ⟨?_, ?_, ?_⟩
  · intro r
    simp [Cleanup, List.mem_filter]
  · simp [Cleanup, List.countP_eq_length_filter]
  · simp [Cleanup, List.filter_filter]

/-! ## C9: CPU delta collection is total -/

/-- C9.  The Collect delta computation is a total function of the two
snapshots: whenever the wrapped delta of the total counter is zero the
result is {0,0}, and otherwise the divisor is provably nonzero and the
result is the pair of counter-delta percentages; the stored previous
snapshot is always the most recently read one. -/
theorem c9_collect_total_spec (last cur l0 r1 r2 : CPUStats) :
    ((wsub cur.total last.total = 0 ∧ collectDelta last cur = ⟨0, 0⟩) ∨
      ((wsub cur.total last.total : ℚ) ≠ 0 ∧
        collectDelta last cur =
          ⟨(wsub cur.steal last.steal : ℚ) / (wsub cur.total last.total : ℚ) * 100,
           (wsub cur.iowait last.iowait : ℚ) / (wsub cur.total last.total : ℚ) * 100⟩)) ∧
    (Collect none r1 r2).2 = r2 ∧
    (Collect (some l0) r1 r2).2 = r1 ∧
    (Collect none r1 r2).1 = collectDelta r1 r2 ∧
    (Collect (some l0) r1 r2).1 = collectDelta l0 r1 := by
  refine ⟨?_, rfl, rfl, rfl, rfl⟩
  by_cases h : wsub cur.total last.total = 0
  · exact Or.inl ⟨h, by simp [collectDelta, h]⟩
  · refine Or.inr ⟨?_, by simp [collectDelta, h]⟩
    exact_mod_cast h

/-! ## C10: memory percentage accessors -/

/-- C10.  The MemoryStats percentage accessors are total with guarded
division: they return 0 when the corresponding total is 0, and for any
uint64-ranged stats with available at most total and swap free at most
swap total, all three stay within [0, 100]. -/
theorem c10_memory_percent_spec (m : MemoryStats) :
    (m.memTotal = 0 → m.UsagePercent = 0 ∧ m.AvailablePercent = 0) ∧
    (m.swapTotal = 0 → m.SwapUsagePercent = 0) ∧
    (m.memTotal < W64 → m.memAvailable ≤ m.memTotal →
      0 ≤ m.UsagePercent ∧ m.UsagePercent ≤ 100 ∧
      0 ≤ m.AvailablePercent ∧ m.AvailablePercent ≤ 100) ∧
    (m.swapTotal < W64 → m.swapFree ≤ m.swapTotal →
      0 ≤ m.SwapUsagePercent ∧ m.SwapUsagePercent ≤ 100) := by
  refine ⟨?_, ?_, ?_, ?_⟩
  · intro h
    constructor <;> simp [MemoryStats.UsagePercent, MemoryStats.AvailablePercent, h]
  · intro h
    simp [MemoryStats.SwapUsagePercent, h]
  · intro hlt hle
    by_cases h0 : m.memTotal = 0
    · constructor <;> try constructor
      all_goals simp [MemoryStats.UsagePercent, MemoryStats.AvailablePercent, h0]
    · have hpos : (0 : ℚ) < (m.memTotal : ℚ) := by
        exact_mod_cast Nat.pos_of_ne_zero h0
      have hw : wsub m.memTotal m.memAvailable = m.memTotal - m.memAvailable :=
        wsub_of_le hle hlt
      have hsub_le : ((m.memTotal - m.memAvailable : ℕ) : ℚ) ≤ (m.memTotal : ℚ) := by
        exact_mod_cast Nat.sub_le _ _
      have havail_le : ((m.memAvailable : ℕ) : ℚ) ≤ (m.memTotal : ℚ) := by
        exact_mod_cast hle
      refine ⟨?_, ?_, ?_, ?_⟩
      · rw [MemoryStats.UsagePercent, if_neg h0]
        positivity
      · rw [MemoryStats.UsagePercent, if_neg h0, hw]
        calc ((m.memTotal - m.memAvailable : ℕ) : ℚ) / (m.memTotal : ℚ) * 100
            ≤ 1 * 100 := by
              have := div_le_one_of_le₀ hsub_le (le_of_lt hpos)
              nlinarith
          _ = 100 := by norm_num
      · rw [MemoryStats.AvailablePercent, if_neg h0]
        positivity
      · rw [MemoryStats.AvailablePercent, if_neg h0]
        have := div_le_one_of_le₀ havail_le (le_of_lt hpos)
        nlinarith
  · intro hlt hle
    by_cases h0 : m.swapTotal = 0
    · simp [MemoryStats.SwapUsagePercent, h0]
    · have hpos : (0 : ℚ) < (m.swapTotal : ℚ) := by
        exact_mod_cast Nat.pos_of_ne_zero h0
      have hw : wsub m.swapTotal m.swapFree = m.swapTotal - m.swapFree :=
        wsub_of_le hle hlt
      have hsub_le : ((m.swapTotal - m.swapFree : ℕ) : ℚ) ≤ (m.swapTotal : ℚ) := by
        exact_mod_cast Nat.sub_le _ _
      constructor
      · rw [MemoryStats.SwapUsagePercent, if_neg h0]
        positivity
      · rw [MemoryStats.SwapUsagePercent, if_neg h0, hw]
        have := div_le_one_of_le₀ hsub_le (le_of_lt hpos)
        nlinarith

/-! ## C1: baseline deviation guard

The claim reads the minimum-sample guard as a combined count across the
steal and latency windows; the source tests each count separately, so we
also formalize the deviation computation in the wording of the
specification for comparison. -/

/-- The percentage deviation of a current mean from a baseline mean, as
the specification words it. -/
def specPercentDeviation (currentMean baselineMean : ℚ) : ℚ :=
  (currentMean - baselineMean) / baselineMean * 100

/-- One per-metric deviation in the wording of the specification: present
exactly when the baseline window is nonempty with positive mean. -/
def specChunk (cur : ℚ) (baseline : List Metric) : List ℚ :=
  if 0 < baseline.length ∧ 0 < avg (extractValues baseline) then
    [specPercentDeviation cur (avg (extractValues baseline))]
  else []

/-- The per-metric percentage deviations the specification describes, for
the steal, latency and load baselines. -/
def specDeviationList (stats : PeriodStats) (bSteal bIO bLoad : List Metric) :
    List ℚ :=
  specChunk stats.cpuStealAvg bSteal ++ specChunk stats.ioLatencyAvg bIO ++
    specChunk stats.cpuLoadAvg bLoad

/-- The classification thresholds the specification describes. -/
def specClassify (t : ℚ) : String :=
  if t > 10 then "degrading" else if t < -10 then "improving" else "stable"

/-- The deviation outcome the specification describes: the absolute value
of the average of the available deviations, with the status classified
from the signed average. -/
def specDeviationOutcome (devs : List ℚ) : ℚ × String :=
  let t := if 0 < devs.length then devs.sum / (devs.length : ℚ) else 0
  (|t|, specClassify t)

/-- The imperative deviation block of the source equals the deviation of
the specification wording. -/
lemma deviationChunk_eq_specChunk (cur : ℚ) (b : List Metric) :
    deviationChunk cur b = specChunk cur b := by
  simp only [deviationChunk, specChunk, specPercentDeviation]
  by_cases h1 : 0 < b.length
  · by_cases h2 : 0 < avg (extractValues b)
    · rw [if_pos h1, if_pos h2, if_pos ⟨h1, h2⟩]
    · rw [if_pos h1, if_neg h2, if_neg (fun hc => h2 hc.2)]
  · rw [if_neg h1, if_neg (fun hc => h1 hc.1)]

/-- The averaging, classification and absolute-value tail of the source
equals the outcome of the specification wording. -/
lemma outcome_eq_specOutcome (devs : List ℚ) :
    (let totalDeviation :=
      if 0 < devs.length then devs.sum / (devs.length : ℚ) else 0
     let status :=
      if totalDeviation > 10 then "degrading"
      else if totalDeviation < -10 then "improving"
      else "stable"
     let totalDeviation :=
      if totalDeviation < 0 then -totalDeviation else totalDeviation
     (totalDeviation, status)) = specDeviationOutcome devs := by
  simp only [specDeviationOutcome, specClassify]
  generalize (if 0 < devs.length then devs.sum / (devs.length : ℚ) else 0) = t
  have habs : (if t < 0 then -t else t) = |t| := by
    rcases lt_or_ge t 0 with h | h
    · rw [if_pos h, abs_of_neg h]
    · rw [if_neg (not_lt.mpr h), abs_of_nonneg h]
  rw [habs]

/-- C1 (amended).  calculateBaselineDeviation forces (0, stable) exactly
by the source guard, which requires the steal count and the latency count
to EACH be below 10; when either count reaches 10 the result is the
per-metric percentage-deviation computation of the specification. -/
theorem c1_baseline_guard (a : Analyzer) (stats : PeriodStats)
    (bS bIO bL : List Metric) :
    baselineDeviationFrom stats bS bIO bL =
      (if bS.length < 10 ∧ bIO.length < 10 then (0, "stable")
       else specDeviationOutcome (specDeviationList stats bS bIO bL)) ∧
    calculateBaselineDeviation a stats =
      baselineDeviationFrom stats
        (queryOr a.store MetricType.cpuSteal
          (stats.startTime - 7 * 86400) stats.startTime)
        (queryOr a.store MetricType.ioLatency
          (stats.startTime - 7 * 86400) stats.startTime)
        (queryOr a.store MetricType.cpuLoad
          (stats.startTime - 7 * 86400) stats.startTime) := by
  constructor
  · unfold baselineDeviationFrom
    by_cases hg : bS.length < 10 ∧ bIO.length < 10
    · rw [if_pos hg, if_pos hg]
    · rw [if_neg hg, if_neg hg]
      refine (outcome_eq_specOutcome _).trans (congrArg specDeviationOutcome ?_)
      simp only [specDeviationList, deviationChunk_eq_specChunk]
  · rfl

/-- Concrete store for the C1 counterexample: five steal samples and five
latency samples in every window, all with value 1. -/
def storeC1 : Store := fun t _ _ =>
  if t = MetricType.cpuSteal then
    .ok (List.replicate 5 { mtype := MetricType.cpuSteal, value := 1 })
  else if t = MetricType.ioLatency then
    .ok (List.replicate 5 { mtype := MetricType.ioLatency, value := 1 })
  else .ok []

/-- Concrete analyzer for the C1 counterexample. -/
def analyzerC1 : Analyzer := ⟨storeC1, StorageType.unknown⟩

/-- Concrete period stats for the C1 counterexample: current means twice
the baseline means. -/
def statsC1 : PeriodStats := { cpuStealAvg := 2, ioLatencyAvg := 2 }

/-- C1 counterexample.  The baseline windows hold 5 + 5 = 10 combined
samples, at least the claimed combined minimum of 10, yet the source
still reports (0, stable); the per-metric deviation computation the claim
prescribes would report (100, degrading) on the same input. -/
theorem c1_counterexample :
    calculateBaselineDeviation analyzerC1 statsC1 = (0, "stable") ∧
    (queryOr analyzerC1.store MetricType.cpuSteal
      (statsC1.startTime - 7 * 86400) statsC1.startTime).length +
    (queryOr analyzerC1.store MetricType.ioLatency
      (statsC1.startTime - 7 * 86400) statsC1.startTime).length = 10 ∧
    specDeviationOutcome (specDeviationList statsC1
      (queryOr analyzerC1.store MetricType.cpuSteal
        (statsC1.startTime - 7 * 86400) statsC1.startTime)
      (queryOr analyzerC1.store MetricType.ioLatency
        (statsC1.startTime - 7 * 86400) statsC1.startTime)
      (queryOr analyzerC1.store MetricType.cpuLoad
        (statsC1.startTime - 7 * 86400) statsC1.startTime)) =
      (100, "degrading") := by
  refine ⟨by decide, by decide, ?_⟩
  have hsteal : queryOr analyzerC1.store MetricType.cpuSteal
      (statsC1.startTime - 7 * 86400) statsC1.startTime =
      List.replicate 5 { mtype := MetricType.cpuSteal, value := 1 } := rfl
  have hio : queryOr analyzerC1.store MetricType.ioLatency
      (statsC1.startTime - 7 * 86400) statsC1.startTime =
      List.replicate 5 { mtype := MetricType.ioLatency, value := 1 } := rfl
  have hload : queryOr analyzerC1.store MetricType.cpuLoad
      (statsC1.startTime - 7 * 86400) statsC1.startTime = [] := rfl
  have havg : ∀ t : MetricType,
      avg (extractValues (List.replicate 5 ({ mtype := t, value := 1 } : Metric))) = 1 := by
    intro t
    simp [avg, extractValues, List.map_replicate, List.sum_replicate,
      List.length_replicate, nsmul_eq_mul]
    norm_num
  have hchunk1 : specChunk statsC1.cpuStealAvg
      (List.replicate 5 { mtype := MetricType.cpuSteal, value := 1 }) = [100] := by
    rw [specChunk, havg, if_pos ⟨by simp, by norm_num⟩]
    norm_num [specPercentDeviation, statsC1]
  have hchunk2 : specChunk statsC1.ioLatencyAvg
      (List.replicate 5 { mtype := MetricType.ioLatency, value := 1 }) = [100] := by
    rw [specChunk, havg, if_pos ⟨by simp, by norm_num⟩]
    norm_num [specPercentDeviation, statsC1]
  have hchunk3 : specChunk statsC1.cpuLoadAvg ([] : List Metric) = [] := by
    rw [specChunk, if_neg (fun hc => by simp at hc)]
  rw [hsteal, hio, hload, specDeviationList, hchunk1, hchunk2, hchunk3]
  have habs : |(100 : ℚ)| = 100 := abs_of_nonneg (by norm_num)
  norm_num [specDeviationOutcome, specClassify, habs, List.sum_cons, List.sum_nil]

/-! ## C2: AnalyzePeriod never surfaces query errors -/

/-- A store view that replaces every query failure with an empty result
set. -/
def maskStore (store : Store) : Store := fun t start fin =>
  match store t start fin with
  | .ok l => .ok l
  | .error _ => .ok ([] : List Metric)

/-- Discarded errors behave exactly like empty result sets. -/
lemma queryOr_maskStore (store : Store) (t : MetricType) (start fin : ℤ) :
    queryOr (maskStore store) t start fin = queryOr store t start fin := by
  unfold queryOr maskStore
  cases store t start fin <;> rfl

/-- C2 (amended).  AnalyzePeriod always returns a nil error, and its
output is unchanged when every failed query is replaced by an empty
result: storage failures are silently treated as absent data, not
surfaced. -/
theorem c2_analyze_never_errors (a : Analyzer) (period : String)
    (start fin : ℤ) :
    (AnalyzePeriod a period start fin).2 = none ∧
    AnalyzePeriod a period start fin =
      AnalyzePeriod ⟨maskStore a.store, a.storageType⟩ period start fin := by
  constructor
  · rfl
  · simp only [AnalyzePeriod, calculateBaselineDeviation, queryOr_maskStore]

/-- Concrete always-failing store for the C2 counterexample. -/
def storeFailC2 : Store := fun _ _ _ => .error "query failed"

/-- Concrete analyzer over the always-failing store. -/
def analyzerC2 : Analyzer := ⟨storeFailC2, StorageType.unknown⟩

/-- C2 counterexample.  Every store query fails on this input, yet
AnalyzePeriod reports no error. -/
theorem c2_counterexample :
    storeFailC2 MetricType.cpuSteal 0 1000 = .error "query failed" ∧
    (AnalyzePeriod analyzerC2 "daily" 0 1000).2 = none :=
  ⟨rfl, rfl⟩

/-! ## C8: test-directory selection and the tmpfs check

The claim describes the rejection test as consulting the longest-matching
mount entry; the source accepts a match from any tmpfs entry, so we also
formalize the longest-match reading of the specification for
comparison. -/

/-- The filesystem type of the longest-matching mount entry for a path,
as the claim words the rejection test. -/
def longestMatchFsType (mounts : List (List String)) (path : String) :
    Option String :=
  let matching := mounts.filterMap fun fields =>
    if fields.length < 3 then none
    else
      let mountPoint := fields.getD 1 ""
      let fsType := fields.getD 2 ""
      if path == mountPoint || startsWith path (mountPoint ++ "/") then
        some (mountPoint, fsType)
      else none
  match matching.foldl (fun best e =>
      match best with
      | none => some e
      | some b => if b.1.length < e.1.length then some e else some b) none with
  | some b => some b.2
  | none => none

/-- A path that equals a mount point, or extends it past a slash, starts
with that mount point. -/
lemma startsWith_of_eq_or_slash {path mp : String}
    (h : path = mp ∨ startsWith path (mp ++ "/") = true) :
    startsWith path mp = true := by
  rcases h with h | h
  · subst h
    exact List.isPrefixOf_iff_prefix.mpr (List.prefix_refl _)
  · unfold startsWith at h ⊢
    rw [List.isPrefixOf_iff_prefix] at h ⊢
    rw [String.data_append] at h
    exact (List.prefix_append _ _).trans h

/-- Pointwise reading of the per-entry test inside isTmpfs. -/
lemma tmpfsEntry_iff (path : String) (fields : List String) :
    ((if fields.length < 3 then false
      else
        let mountPoint := fields.getD 1 ""
        let fsType := fields.getD 2 ""
        if startsWith path mountPoint && fsType == "tmpfs" then
          path == mountPoint || startsWith path (mountPoint ++ "/")
        else false) = true) ↔
      (¬(fields.length < 3) ∧ fields.getD 2 "" = "tmpfs" ∧
        (path = fields.getD 1 "" ∨
          startsWith path (fields.getD 1 "" ++ "/") = true)) := by
  by_cases hlen : fields.length < 3
  · simp [hlen]
  · rw [if_neg hlen]
    show ((if startsWith path (fields.getD 1 "") && (fields.getD 2 "" == "tmpfs") then
        path == fields.getD 1 "" || startsWith path (fields.getD 1 "" ++ "/")
      else false) = true) ↔ _
    by_cases hc : (startsWith path (fields.getD 1 "") &&
        (fields.getD 2 "" == "tmpfs")) = true
    · rw [if_pos hc]
      rcases Bool.and_eq_true_iff.mp hc with ⟨_, hfs⟩
      constructor
      · intro h
        rcases Bool.or_eq_true_iff.mp h with h | h
        · exact ⟨hlen, beq_iff_eq.mp hfs, Or.inl (beq_iff_eq.mp h)⟩
        · exact ⟨hlen, beq_iff_eq.mp hfs, Or.inr h⟩
      · intro h
        rcases h.2.2 with h2 | h2
        · exact Bool.or_eq_true_iff.mpr (Or.inl (beq_iff_eq.mpr h2))
        · exact Bool.or_eq_true_iff.mpr (Or.inr h2)
    · rw [if_neg hc]
      constructor
      · intro h
        exact absurd h Bool.false_ne_true
      · intro h
        exact absurd (Bool.and_eq_true_iff.mpr
          ⟨startsWith_of_eq_or_slash h.2.2, beq_iff_eq.mpr h.2.1⟩) hc

/-- C8 (amended).  isTmpfs reports true exactly when SOME mount-table
entry with at least three fields has filesystem type tmpfs and a mount
point equal to the path or a slash-terminated prefix of it (not only the
longest-matching entry); selectTestDir walks /tmp then /var/tmp, skipping
candidates whose stat fails or that isTmpfs rejects, and otherwise falls
back to the current directory. -/
theorem c8_tmpfs_selection (mounts : List (List String))
    (statOk : String → Bool) (path : String) :
    (isTmpfs mounts path = true ↔
      ∃ fields ∈ mounts, ¬(fields.length < 3) ∧ fields.getD 2 "" = "tmpfs" ∧
        (path = fields.getD 1 "" ∨
          startsWith path (fields.getD 1 "" ++ "/") = true)) ∧
    selectTestDir mounts statOk =
      (if statOk "/tmp" && !isTmpfs mounts "/tmp" then "/tmp"
       else if statOk "/var/tmp" && !isTmpfs mounts "/var/tmp" then "/var/tmp"
       else ".") := by
  constructor
  · unfold isTmpfs
    rw [List.any_eq_true]
    constructor
    · rintro ⟨fields, hmem, hp⟩
      exact ⟨fields, hmem, (tmpfsEntry_iff path fields).mp hp⟩
    · rintro ⟨fields, hmem, hp⟩
      exact ⟨fields, hmem, (tmpfsEntry_iff path fields).mpr hp⟩
  · have hne1 : (("/tmp" : String) == ".") = false := by decide
    have hne2 : (("/var/tmp" : String) == ".") = false := by decide
    cases h1 : statOk "/tmp" <;> cases h2 : isTmpfs mounts "/tmp" <;>
      cases h3 : statOk "/var/tmp" <;> cases h4 : isTmpfs mounts "/var/tmp" <;>
      simp [selectTestDir, selectTestDirLoop, hne1, hne2, h1, h2, h3, h4]

/-- Concrete mount table for the C8 counterexample: a tmpfs at /tmp
shadowed by an ext4 filesystem mounted at /tmp/disk. -/
def mountsC8 : List (List String) :=
  [["tmpfs", "/tmp", "tmpfs", "rw"], ["/dev/vda1", "/tmp/disk", "ext4", "rw"]]

/-- C8 counterexample.  The longest-matching entry for /tmp/disk reports
ext4, so the claim would accept the directory, yet the source rejects it
because the shorter /tmp entry is tmpfs. -/
theorem c8_counterexample :
    isTmpfs mountsC8 "/tmp/disk" = true ∧
    longestMatchFsType mountsC8 "/tmp/disk" = some "ext4" := by
  constructor <;> decide

/-! ## C6: save and query round-trip -/

/-- Permuting an entry list with distinct keys does not change any
lookup. -/
lemma lookup_eq_of_perm {l l2 : ExtraMap} (h : l.Perm l2)
    (nd : (l.map Prod.fst).Nodup) (k : String) :
    l.lookup k = l2.lookup k := by
  induction h with
  | nil => rfl
  | cons x h ih =>
    simp only [List.map_cons, List.nodup_cons] at nd
    obtain ⟨x1, x2⟩ := x
    by_cases hk : k = x1
    · subst hk
      simp [List.lookup_cons]
    · have hb : (k == x1) = false := by simpa using hk
      simp [List.lookup_cons, hb, ih nd.2]
  | swap x y l =>
    obtain ⟨x1, x2⟩ := x
    obtain ⟨y1, y2⟩ := y
    simp only [List.map_cons, List.nodup_cons, List.mem_cons] at nd
    have hyx : y1 ≠ x1 := fun hc => nd.1 (Or.inl hc)
    by_cases hky : k = y1
    · subst hky
      have hb : (k == x1) = false := by simpa using hyx
      simp [List.lookup_cons, hb]
    · have hb : (k == y1) = false := by simpa using hky
      by_cases hkx : k = x1
      · subst hkx
        simp [List.lookup_cons, hb]
      · have hb2 : (k == x1) = false := by simpa using hkx
        simp [List.lookup_cons, hb, hb2]
  | trans h1 h2 ih1 ih2 =>
    rw [ih1 nd, ih2 ((h1.map Prod.fst).nodup_iff.mp nd)]

/-- Serializing an extra map with distinct keys preserves every lookup. -/
lemma lookup_marshalExtra (e : ExtraMap) (nd : (e.map Prod.fst).Nodup)
    (k : String) : (marshalExtra e).lookup k = e.lookup k := by
  have hp : (marshalExtra e).Perm e := List.mergeSort_perm e _
  exact lookup_eq_of_perm hp (((hp.map Prod.fst)).nodup_iff.mpr nd) k

/-- C6.  Saving a metric whose extra payload is a populated mapping and
querying its type over a window containing its timestamp yields a metric
whose payload maps every key exactly as the saved payload did. -/
theorem c6_save_query_roundtrip (s : Storage) (m : Metric) (e : ExtraMap)
    (start fin : ℤ) (hex : m.extra = some e) (hpop : e ≠ [])
    (hnd : (e.map Prod.fst).Nodup) (h1 : start ≤ m.timestamp)
    (h2 : m.timestamp ≤ fin) :
    ∃ m2 ∈ Query (Save s m) m.mtype start fin,
      m2.timestamp = m.timestamp ∧ m2.value = m.value ∧
      ∃ e2, m2.extra = some e2 ∧ ∀ k, e2.lookup k = e.lookup k := by
  have hrmem : (⟨s.nextId, m.timestamp, m.mtype, m.value, m.extra.map marshalExtra⟩ : Row)
      ∈ (Save s m).rows := by
    simp [Save]
  have hfil : (⟨s.nextId, m.timestamp, m.mtype, m.value, m.extra.map marshalExtra⟩ : Row)
      ∈ (Save s m).rows.filter (fun r =>
        decide (r.mtype = m.mtype) && decide (start ≤ r.timestamp) &&
          decide (r.timestamp ≤ fin)) := by
    rw [List.mem_filter]
    exact ⟨hrmem, by simp [h1, h2]⟩
  have hsort : (⟨s.nextId, m.timestamp, m.mtype, m.value, m.extra.map marshalExtra⟩ : Row)
      ∈ ((Save s m).rows.filter (fun r =>
        decide (r.mtype = m.mtype) && decide (start ≤ r.timestamp) &&
          decide (r.timestamp ≤ fin))).mergeSort
        (fun r1 r2 => r1.timestamp ≤ r2.timestamp) :=
    List.mem_mergeSort.mpr hfil
  refine ⟨{ id := s.nextId, timestamp := m.timestamp, mtype := m.mtype,
            value := m.value, extra := m.extra.map marshalExtra }, ?_, rfl, rfl, ?_⟩
  · exact List.mem_map_of_mem _ hsort
  · refine ⟨marshalExtra e, ?_, fun k => lookup_marshalExtra e hnd k⟩
    rw [hex]
    rfl

/-- The concrete metric used by the C6 witness. -/
def metricC6 : Metric :=
  { timestamp := 5, mtype := MetricType.randomIO, value := 1,
    extra := some [("write_latency_ms", JsonValue.num 2)] }

/-- Witness for C6 with one concrete metric carrying a populated
payload. -/
theorem c6_witness :
    ∃ m2 ∈ Query (Save {} metricC6) MetricType.randomIO 0 10,
      m2.timestamp = 5 ∧ m2.value = 1 ∧
      ∃ e2, m2.extra = some e2 ∧
        ∀ k, e2.lookup k = ([("write_latency_ms", JsonValue.num 2)] : ExtraMap).lookup k :=
  c6_save_query_roundtrip {} metricC6 [("write_latency_ms", JsonValue.num 2)] 0 10 rfl
    (by decide) (by decide) (by decide) (by decide)

/-! ## C3: nearest-rank percentile -/

/-- The clamp of the nearest-rank index into [0, n-1], as one min/toNat
expression. -/
lemma clampIdx (c : ℤ) (n : ℕ) (hn : 1 ≤ n) :
    (if (n : ℤ) ≤ (if c - 1 < 0 then 0 else c - 1) then (n : ℤ) - 1
     else if c - 1 < 0 then 0 else c - 1).toNat =
      min (c - 1).toNat (n - 1) := by
  omega

/-- C3.  On every nonempty value list, percentile returns the element of
the ascending sort of the values (a sorted permutation of the input) at
index ceil(p/100*n)-1 clamped into [0, n-1]; on a strictly ascending
input, percentile 100 is the maximum (the last element) and any p with
0 < p and p*n at most 100 gives the first element. -/
theorem c3_percentile_spec (l : List ℚ) (hne : l ≠ []) :
    (∀ p : ℚ, ∃ sorted : List ℚ, sorted.Perm l ∧ sorted.Sorted (· ≤ ·) ∧
      percentile l p =
        sorted.getD (min ((⌈p / 100 * (l.length : ℚ)⌉ - 1).toNat) (l.length - 1)) 0) ∧
    (l.Sorted (· < ·) →
      percentile l 100 = l.getLast hne ∧
      (∀ p : ℚ, 0 < p → p * (l.length : ℚ) ≤ 100 → percentile l p = l.head hne)) := by
  have hlen : ¬(l.length = 0) := fun h => hne (List.length_eq_zero.mp h)
  have hn1 : 1 ≤ l.length := Nat.pos_of_ne_zero hlen
  constructor
  · intro p
    refine ⟨l.mergeSort (fun a b => a ≤ b), List.mergeSort_perm l _,
      List.sorted_mergeSort' l, ?_⟩
    unfold percentile
    rw [if_neg hlen]
    exact congrArg (fun i => (l.mergeSort (fun a b => a ≤ b)).getD i 0)
      (clampIdx ⌈p / 100 * (l.length : ℚ)⌉ l.length hn1)
  · intro hs
    have hsle : l.Sorted (· ≤ ·) := hs.le_of_lt
    have hms : l.mergeSort (fun a b => a ≤ b) = l := List.mergeSort_eq_self hsle
    constructor
    · unfold percentile
      rw [if_neg hlen]
      simp only [hms]
      have hceil : (⌈(100 : ℚ) / 100 * (l.length : ℚ)⌉ : ℤ) = l.length := by
        norm_num
      rw [hceil]
      have h1 : ¬((l.length : ℤ) - 1 < 0) := by omega
      rw [if_neg h1]
      have h2 : ¬((l.length : ℤ) ≤ (l.length : ℤ) - 1) := by omega
      rw [if_neg h2]
      have h3 : ((l.length : ℤ) - 1).toNat = l.length - 1 := by omega
      rw [h3, List.getLast_eq_getElem, List.getD_eq_getElem?_getD,
        List.getElem?_eq_getElem (by omega)]
      rfl
    · intro p hp hpn
      unfold percentile
      rw [if_neg hlen]
      simp only [hms]
      have hpos : (0 : ℚ) < (l.length : ℚ) := by
        exact_mod_cast Nat.pos_of_ne_zero hlen
      have hceil : (⌈p / 100 * (l.length : ℚ)⌉ : ℤ) = 1 := by
        rw [Int.ceil_eq_iff]
        constructor
        · push_cast
          have : (0 : ℚ) < p / 100 := by positivity
          nlinarith
        · push_cast
          nlinarith
      rw [hceil]
      have e1 : (if ((1 : ℤ) - 1 < 0) then (0 : ℤ) else 1 - 1) = 0 := by norm_num
      rw [e1]
      have h2 : ¬((l.length : ℤ) ≤ 0) := by omega
      rw [if_neg h2]
      rw [show ((0 : ℤ)).toNat = 0 by norm_num, List.head_eq_getElem,
        List.getD_eq_getElem?_getD, List.getElem?_eq_getElem (by omega)]
      rfl

/-- Witness for C3 on the concrete sorted list [1, 2, 3]. -/
theorem c3_witness :
    percentile [1, 2, 3] 100 = 3 ∧ percentile [1, 2, 3] 10 = 1 := by
  have h := (c3_percentile_spec [1, 2, 3] (by decide)).2 (by decide)
  refine ⟨?_, ?_⟩
  · rw [h.1]
    rfl
  · rw [h.2 10 (by norm_num) (by norm_num)]
    rfl

/-- Witness for C10 at a concrete memory snapshot. -/
theorem c10_witness :
    (0 : ℚ) ≤ MemoryStats.UsagePercent ⟨100, 10, 25, 5, 20, 10, 4⟩ ∧
    MemoryStats.UsagePercent ⟨100, 10, 25, 5, 20, 10, 4⟩ ≤ 100 ∧
    (0 : ℚ) ≤ MemoryStats.AvailablePercent ⟨100, 10, 25, 5, 20, 10, 4⟩ ∧
    MemoryStats.AvailablePercent ⟨100, 10, 25, 5, 20, 10, 4⟩ ≤ 100 := by
  exact (c10_memory_percent_spec ⟨100, 10, 25, 5, 20, 10, 4⟩).2.2.1
    (by norm_num [W64]) (by norm_num)

/-! ## Witness instances -/

/-- Witness for C1: with three empty baseline windows the guard fires and
the result is (0, stable). -/
theorem c1_witness : baselineDeviationFrom statsC1 [] [] [] = (0, "stable") :=
  ((c1_baseline_guard analyzerC1 statsC1 [] [] []).1).trans (by decide)

/-- Witness for C2 at the always-failing store. -/
theorem c2_witness : (AnalyzePeriod analyzerC2 "daily" 0 1000).2 = none :=
  (c2_analyze_never_errors analyzerC2 "daily" 0 1000).1

/-- Witness for C4 at a concrete high-load stats value. -/
theorem c4_witness :
    calculateOversellConfidenceBoost { cpuLoadAvg := 1 } = 1 ∧
    1 ≤ calculateOversellConfidenceBoost { cpuLoadAvg := 1 } := by
  have h := c4_confidence_boost_spec { cpuLoadAvg := 1 }
  exact ⟨h.1.trans (by norm_num), h.2.1⟩

/-- Witness for C7 on a concrete one-row store. -/
theorem c7_witness :
    (Cleanup (Cleanup ⟨[⟨1, -1000000, MetricType.cpuSteal, 1, none⟩], 2⟩ 0 7).2 0 7).1 = 0 :=
  (c7_cleanup_spec ⟨[⟨1, -1000000, MetricType.cpuSteal, 1, none⟩], 2⟩ 0 7).2.2

/-- Witness for C8 on the empty mount table with every stat
succeeding. -/
theorem c8_witness : selectTestDir [] (fun _ => true) = "/tmp" := by
  have h := (c8_tmpfs_selection [] (fun _ => true) "/tmp").2
  rw [h]
  decide

/-- Witness for C9 at a pair of identical all-zero snapshots. -/
theorem c9_witness :
    collectDelta ⟨0, 0, 0, 0, 0, 0, 0, 0, 0, 0⟩ ⟨0, 0, 0, 0, 0, 0, 0, 0, 0, 0⟩ =
      ⟨0, 0⟩ := by
  have h := (c9_collect_total_spec ⟨0, 0, 0, 0, 0, 0, 0, 0, 0, 0⟩
    ⟨0, 0, 0, 0, 0, 0, 0, 0, 0, 0⟩ ⟨0, 0, 0, 0, 0, 0, 0, 0, 0, 0⟩
    ⟨0, 0, 0, 0, 0, 0, 0, 0, 0, 0⟩ ⟨0, 0, 0, 0, 0, 0, 0, 0, 0, 0⟩).1
  rcases h with ⟨_, heq⟩ | ⟨hne, _⟩
  · exact heq
  · have hz : wsub (CPUStats.total ⟨0, 0, 0, 0, 0, 0, 0, 0, 0, 0⟩)
        (CPUStats.total ⟨0, 0, 0, 0, 0, 0, 0, 0, 0, 0⟩) = 0 := by decide
    exact absurd (by rw [hz]; norm_num) hne

end Chaoleme
